import Mathlib

/-!
Shallow embedding of the dynamic-font-scaling core of the
react-native-dynamic-font-scaling repository.

Numbers are modelled as rationals (ℚ); JavaScript's Math.round is the
round-half-up rule, modelled as jsRound.  The embedded functions follow:

  * src/src/theme/theme.ts        — applyScale, createScaledFontSizes,
                                    createScaledSpacing, textVariants
  * src/src/hooks/useFontScale.ts — clamp, getNativeFontScale,
                                    the FontScaleResult computations
  * src/src/theme/ThemeProvider.tsx — FontScaleContext, useFontScaleValue
  * android FontScaleModule.kt    — the native getFontScale fallbacks
-/

namespace FontScaling

/-- JavaScript Math.round: nearest integer, ties toward positive infinity. -/
def jsRound (q : ℚ) : ℤ := ⌊q + 1/2⌋

/-- clamp from useFontScale.ts: Math.min(Math.max(value, min), max). -/
def clamp (value minScale maxScale : ℚ) : ℚ :=
  min (max value minScale) maxScale

/-- Per-category scale caps (scaleCaps in theme.ts). -/
def scaleCapsHeading : ℚ := 1.4

/-- Body cap from scaleCaps in theme.ts. -/
def scaleCapsBody : ℚ := 2.0

/-- Button cap from scaleCaps in theme.ts. -/
def scaleCapsButton : ℚ := 1.3

/-- Caption cap from scaleCaps in theme.ts. -/
def scaleCapsCaption : ℚ := 1.8

/-- Spacing cap from scaleCaps in theme.ts. -/
def scaleCapsSpacing : ℚ := 1.5

/-- applyScale from theme.ts:
    effectiveScale = Math.min(fontScale, cap);
    return Math.round(baseValue * effectiveScale). -/
def applyScale (baseValue fontScale cap : ℚ) : ℤ :=
  jsRound (baseValue * min fontScale cap)

/-- Keys of the baseFontSizes object in theme.ts. -/
inductive FontSizeKey
| xs | sm | md | lg | xl | x2l | x3l | x4l | x5l | x6l
deriving DecidableEq

/-- baseFontSizes from theme.ts. -/
def baseFontSizes : FontSizeKey → ℚ
  | .xs => 10
  | .sm => 12
  | .md => 14
  | .lg => 16
  | .xl => 18
  | .x2l => 20
  | .x3l => 24
  | .x4l => 30
  | .x5l => 36
  | .x6l => 48

/-- createScaledFontSizes from theme.ts: each key scaled with its
    category's cap (xs, sm: caption; md, lg: body; xl..6xl: heading). -/
def createScaledFontSizes (fontScale : ℚ) : FontSizeKey → ℤ
  | .xs => applyScale (baseFontSizes .xs) fontScale scaleCapsCaption
  | .sm => applyScale (baseFontSizes .sm) fontScale scaleCapsCaption
  | .md => applyScale (baseFontSizes .md) fontScale scaleCapsBody
  | .lg => applyScale (baseFontSizes .lg) fontScale scaleCapsBody
  | .xl => applyScale (baseFontSizes .xl) fontScale scaleCapsHeading
  | .x2l => applyScale (baseFontSizes .x2l) fontScale scaleCapsHeading
  | .x3l => applyScale (baseFontSizes .x3l) fontScale scaleCapsHeading
  | .x4l => applyScale (baseFontSizes .x4l) fontScale scaleCapsHeading
  | .x5l => applyScale (baseFontSizes .x5l) fontScale scaleCapsHeading
  | .x6l => applyScale (baseFontSizes .x6l) fontScale scaleCapsHeading

/-- Keys of the baseSpacing object in theme.ts. -/
inductive SpacingKey
| none | xs | sm | md | lg | xl | x2l | x3l | x4l | x5l | x6l
deriving DecidableEq

/-- The six negative spacing keys added by createScaledSpacing. -/
inductive NegSpacingKey
| xs | sm | md | lg | xl | x2l
deriving DecidableEq

/-- baseSpacing from theme.ts. -/
def baseSpacing : SpacingKey → ℚ
  | .none => 0
  | .xs => 4
  | .sm => 8
  | .md => 12
  | .lg => 16
  | .xl => 20
  | .x2l => 24
  | .x3l => 32
  | .x4l => 40
  | .x5l => 48
  | .x6l => 64

/-- The positive-key loop of createScaledSpacing in theme.ts:
    a zero base value stays 0, otherwise applyScale with the spacing cap. -/
def scaledSpacingPos (fontScale : ℚ) (k : SpacingKey) : ℤ :=
  if baseSpacing k = 0 then 0
  else applyScale (baseSpacing k) fontScale scaleCapsSpacing

/-- The positive counterpart of each negative spacing key
    (scaledSpacing[-xs] = -scaledSpacing.xs, etc., in theme.ts). -/
def negSpacingBase : NegSpacingKey → SpacingKey
  | .xs => .xs
  | .sm => .sm
  | .md => .md
  | .lg => .lg
  | .xl => .xl
  | .x2l => .x2l

/-- An entry of the full scaled-spacing record (positive or negative key). -/
inductive SpacingEntry
| pos (k : SpacingKey)
| neg (k : NegSpacingKey)
deriving DecidableEq

/-- createScaledSpacing from theme.ts: the loop over baseSpacing followed by
    the six negated entries. -/
def createScaledSpacing (fontScale : ℚ) : SpacingEntry → ℤ
  | .pos k => scaledSpacingPos fontScale k
  | .neg k => - scaledSpacingPos fontScale (negSpacingBase k)

/-- Line-height multiplier tight from theme.ts. -/
def lineHeightTight : ℚ := 1.2

/-- Line-height multiplier normal from theme.ts. -/
def lineHeightNormal : ℚ := 1.5

/-- Line-height multiplier relaxed from theme.ts. -/
def lineHeightRelaxed : ℚ := 1.75

/-- The text variants of the theme (theme.ts textVariants). -/
inductive VariantKey
| defaults | h1 | h2 | h3 | h4 | h5 | h6
| body | bodyLarge | bodySmall
| button | buttonLarge | buttonSmall
| caption | captionMedium
| label | labelLarge | link
deriving DecidableEq

/-- The fontSize field of each text variant in theme.ts. -/
def variantFontSize (fontScale : ℚ) : VariantKey → ℤ
  | .defaults => createScaledFontSizes fontScale .md
  | .h1 => createScaledFontSizes fontScale .x6l
  | .h2 => createScaledFontSizes fontScale .x5l
  | .h3 => createScaledFontSizes fontScale .x4l
  | .h4 => createScaledFontSizes fontScale .x3l
  | .h5 => createScaledFontSizes fontScale .x2l
  | .h6 => createScaledFontSizes fontScale .xl
  | .body => createScaledFontSizes fontScale .md
  | .bodyLarge => createScaledFontSizes fontScale .lg
  | .bodySmall => createScaledFontSizes fontScale .sm
  | .button => applyScale (baseFontSizes .md) fontScale scaleCapsButton
  | .buttonLarge => applyScale (baseFontSizes .lg) fontScale scaleCapsButton
  | .buttonSmall => applyScale (baseFontSizes .sm) fontScale scaleCapsButton
  | .caption => createScaledFontSizes fontScale .xs
  | .captionMedium => createScaledFontSizes fontScale .sm
  | .label => createScaledFontSizes fontScale .sm
  | .labelLarge => createScaledFontSizes fontScale .md
  | .link => createScaledFontSizes fontScale .md

/-- The line-height multiplier used by each text variant in theme.ts
    (headings use tight, every other variant uses normal). -/
def variantMultiplier : VariantKey → ℚ
  | .h1 => lineHeightTight
  | .h2 => lineHeightTight
  | .h3 => lineHeightTight
  | .h4 => lineHeightTight
  | .h5 => lineHeightTight
  | .h6 => lineHeightTight
  | _ => lineHeightNormal

/-- The lineHeight field of each text variant in theme.ts:
    Math.round(fontSize * multiplier) with the variant's fontSize inlined
    exactly as in the source. -/
def variantLineHeight (fontScale : ℚ) : VariantKey → ℤ
  | .defaults => jsRound ((createScaledFontSizes fontScale .md : ℚ) * lineHeightNormal)
  | .h1 => jsRound ((createScaledFontSizes fontScale .x6l : ℚ) * lineHeightTight)
  | .h2 => jsRound ((createScaledFontSizes fontScale .x5l : ℚ) * lineHeightTight)
  | .h3 => jsRound ((createScaledFontSizes fontScale .x4l : ℚ) * lineHeightTight)
  | .h4 => jsRound ((createScaledFontSizes fontScale .x3l : ℚ) * lineHeightTight)
  | .h5 => jsRound ((createScaledFontSizes fontScale .x2l : ℚ) * lineHeightTight)
  | .h6 => jsRound ((createScaledFontSizes fontScale .xl : ℚ) * lineHeightTight)
  | .body => jsRound ((createScaledFontSizes fontScale .md : ℚ) * lineHeightNormal)
  | .bodyLarge => jsRound ((createScaledFontSizes fontScale .lg : ℚ) * lineHeightNormal)
  | .bodySmall => jsRound ((createScaledFontSizes fontScale .sm : ℚ) * lineHeightNormal)
  | .button => jsRound ((applyScale (baseFontSizes .md) fontScale scaleCapsButton : ℚ) * lineHeightNormal)
  | .buttonLarge => jsRound ((applyScale (baseFontSizes .lg) fontScale scaleCapsButton : ℚ) * lineHeightNormal)
  | .buttonSmall => jsRound ((applyScale (baseFontSizes .sm) fontScale scaleCapsButton : ℚ) * lineHeightNormal)
  | .caption => jsRound ((createScaledFontSizes fontScale .xs : ℚ) * lineHeightNormal)
  | .captionMedium => jsRound ((createScaledFontSizes fontScale .sm : ℚ) * lineHeightNormal)
  | .label => jsRound ((createScaledFontSizes fontScale .sm : ℚ) * lineHeightNormal)
  | .labelLarge => jsRound ((createScaledFontSizes fontScale .md : ℚ) * lineHeightNormal)
  | .link => jsRound ((createScaledFontSizes fontScale .md : ℚ) * lineHeightNormal)

/-- Default minScale of UseFontScaleOptions in useFontScale.ts. -/
def defaultMinScale : ℚ := 0.8

/-- Default maxScale of UseFontScaleOptions in useFontScale.ts. -/
def defaultMaxScale : ℚ := 2.0

/-- FontScaleResult from useFontScale.ts. -/
structure FontScaleResult where
  fontScale : ℚ
  fontScaleCorrection : ℚ
  cachedFontScale : ℚ
  updateCount : ℕ
deriving DecidableEq

/-- The initial-state computation of the useFontScale hook
    (useState initializer in useFontScale.ts): clamp the sync read,
    guard the division by a zero cached scale, keep the global counter. -/
def initialFontScaleState (actualScale cachedScale minScale maxScale : ℚ)
    (globalUpdateCount : ℕ) : FontScaleResult :=
  let clampedScale := clamp actualScale minScale maxScale
  let correction := if cachedScale ≠ 0 then clampedScale / cachedScale else 1
  { fontScale := clampedScale
    fontScaleCorrection := correction
    cachedFontScale := cachedScale
    updateCount := globalUpdateCount }

/-- The updateFontScale computation in useFontScale.ts: same arithmetic as
    the initial state, with the global counter incremented before publishing. -/
def updateFontScaleResult (actualScale cachedScale minScale maxScale : ℚ)
    (globalUpdateCount : ℕ) : FontScaleResult :=
  let clampedScale := clamp actualScale minScale maxScale
  let correction := if cachedScale ≠ 0 then clampedScale / cachedScale else 1
  { fontScale := clampedScale
    fontScaleCorrection := correction
    cachedFontScale := cachedScale
    updateCount := globalUpdateCount + 1 }

/-- The record returned by the imperative getFontScale in useFontScale.ts
    (it carries no updateCount field). -/
structure FontScaleSnapshot where
  fontScale : ℚ
  fontScaleCorrection : ℚ
  cachedFontScale : ℚ
deriving DecidableEq

/-- The imperative getFontScale in useFontScale.ts. -/
def getFontScaleResult (actualScale cachedScale minScale maxScale : ℚ) :
    FontScaleSnapshot :=
  let clampedScale := clamp actualScale minScale maxScale
  let correction := if cachedScale ≠ 0 then clampedScale / cachedScale else 1
  { fontScale := clampedScale
    fontScaleCorrection := correction
    cachedFontScale := cachedScale }

/-- The environment seen by getNativeFontScale in useFontScale.ts:
    the platform check, the optional native module, the outcome of awaiting
    FontScaleModule.getFontScale(), and the cached platform read
    (PixelRatio.getFontScale(), which a test may make throw). -/
structure ScaleReadEnv where
  platformIsAndroid : Bool
  moduleAvailable : Bool
  moduleRead : Except Unit ℚ
  cachedRead : Except Unit ℚ

/-- getNativeFontScale from useFontScale.ts: on Android with the module
    available, await the module read and fall back to the cached platform
    read when it rejects (an exception in that fallback propagates);
    otherwise use the cached platform read directly. -/
def getNativeFontScale (env : ScaleReadEnv) : Except Unit ℚ :=
  if env.platformIsAndroid && env.moduleAvailable then
    match env.moduleRead with
    | .ok v => .ok v
    | .error _ => env.cachedRead
  else
    env.cachedRead

/-- The Kotlin FontScaleModule.getFontScale (FontScaleModule.kt): read the
    current activity's configuration fontScale, fall back to the application
    context when the activity chain is null, and resolve 1.0 on any
    exception — the promise never rejects.  activityRead is the outcome of
    the activity-side read (ok none models a null activity chain), appRead
    the application-context read. -/
def kotlinGetFontScale (activityRead : Except Unit (Option ℚ))
    (appRead : Except Unit ℚ) : ℚ :=
  match activityRead with
  | .ok (some v) => v
  | .ok Option.none =>
    match appRead with
    | .ok v => v
    | .error _ => 1
  | .error _ => 1

/-- FontScaleContext in ThemeProvider.tsx is created with default value 1. -/
def fontScaleContextDefault : ℚ := 1

/-- React useContext semantics for FontScaleContext: inside a provider the
    value the provider supplied (some v, or none when it supplied
    undefined); outside any provider, the createContext default 1. -/
def useContextFontScale (providerValue : Option (Option ℚ)) : Option ℚ :=
  match providerValue with
  | some v => v
  | Option.none => some fontScaleContextDefault

/-- What useFontScaleValue returns together with whether the
    console.warn branch fired. -/
structure FontScaleValueRead where
  value : ℚ
  warned : Bool
deriving DecidableEq

/-- useFontScaleValue from ThemeProvider.tsx: if the context value is
    undefined, warn and return 1; otherwise return the context value. -/
def useFontScaleValue (ctx : Option ℚ) : FontScaleValueRead :=
  match ctx with
  | Option.none => { value := 1, warned := true }
  | some v => { value := v, warned := false }

/-- Math.round is monotone: jsRound respects the order on ℚ. -/
theorem jsRound_mono {a b : ℚ} (h : a ≤ b) : jsRound a ≤ jsRound b :=
  Int.floor_mono (add_le_add_right h _)

/-- jsRound of a nonnegative rational is nonnegative. -/
theorem jsRound_nonneg {q : ℚ} (h : 0 ≤ q) : 0 ≤ jsRound q :=
  Int.le_floor.mpr (by push_cast; linarith)

/-- applyScale of nonnegative base, scale and cap is nonnegative. -/
theorem applyScale_nonneg {b s c : ℚ} (hb : 0 ≤ b) (hs : 0 ≤ s)
    (hc : 0 ≤ c) : 0 ≤ applyScale b s c :=
  jsRound_nonneg (mul_nonneg hb (le_min hs hc))

/-- Rounding a nonnegative integer times a multiplier at least 1 is at
    least the integer. -/
theorem le_jsRound_mul {n : ℤ} {m : ℚ} (hn : 0 ≤ n) (hm : 1 ≤ m) :
    n ≤ jsRound ((n : ℚ) * m) := by
  have hn' : (0 : ℚ) ≤ (n : ℚ) := by exact_mod_cast hn
  have h1 : (n : ℚ) ≤ (n : ℚ) * m := le_mul_of_one_le_right hn' hm
  exact Int.le_floor.mpr (by linarith)

/-- Claim C1: for every base size b, scale factor s and category cap k the
    derived token value is round(b * min(s, k)); each named font-size token
    uses its category's cap with the listed base size; and concretely
    derive(10, 3.0, 1.8) = 18, derive(16, 0.5, 2.0) = 8, and at published
    scale clamp(3.5, 0.8, 2.0) = 2.0 the heading token for base 48 is 67,
    the body token for base 14 is 28 and the button token for base 14
    is 18. -/
theorem derived_token_values :
    (∀ b s k : ℚ, applyScale b s k = jsRound (b * min s k)) ∧
    (∀ s : ℚ,
      createScaledFontSizes s .xs = jsRound (10 * min s scaleCapsCaption) ∧
      createScaledFontSizes s .sm = jsRound (12 * min s scaleCapsCaption) ∧
      createScaledFontSizes s .md = jsRound (14 * min s scaleCapsBody) ∧
      createScaledFontSizes s .lg = jsRound (16 * min s scaleCapsBody) ∧
      createScaledFontSizes s .xl = jsRound (18 * min s scaleCapsHeading) ∧
      createScaledFontSizes s .x2l = jsRound (20 * min s scaleCapsHeading) ∧
      createScaledFontSizes s .x3l = jsRound (24 * min s scaleCapsHeading) ∧
      createScaledFontSizes s .x4l = jsRound (30 * min s scaleCapsHeading) ∧
      createScaledFontSizes s .x5l = jsRound (36 * min s scaleCapsHeading) ∧
      createScaledFontSizes s .x6l = jsRound (48 * min s scaleCapsHeading)) ∧
    applyScale 10 3 (1.8 : ℚ) = 18 ∧
    applyScale 16 (0.5 : ℚ) 2 = 8 ∧
    clamp (3.5 : ℚ) defaultMinScale defaultMaxScale = 2 ∧
    applyScale 48 (clamp 3.5 defaultMinScale defaultMaxScale) scaleCapsHeading = 67 ∧
    applyScale 14 (clamp 3.5 defaultMinScale defaultMaxScale) scaleCapsBody = 28 ∧
    applyScale 14 (clamp 3.5 defaultMinScale defaultMaxScale) scaleCapsButton = 18 := by
  refine ⟨fun b s k => rfl,
    fun s => ⟨rfl, rfl, rfl, rfl, rfl, rfl, rfl, rfl, rfl, rfl⟩,
    ?_, ?_, ?_, ?_, ?_, ?_⟩ <;>
    norm_num [applyScale, jsRound, clamp, min_def, max_def,
      defaultMinScale, defaultMaxScale, scaleCapsHeading, scaleCapsBody,
      scaleCapsButton]

/-- Claim C2: with minScale ≤ maxScale, clamp(s, minScale, maxScale) lies in
    [minScale, maxScale] and equals s when minScale ≤ s ≤ maxScale, and the
    fontScale exposed by the initial hook state, by every update and by the
    imperative getFontScale obeys the same bounds. -/
theorem clamp_bounds_and_exposure (s cached minScale maxScale : ℚ) (n : ℕ)
    (h : minScale ≤ maxScale) :
    (minScale ≤ clamp s minScale maxScale ∧
      clamp s minScale maxScale ≤ maxScale) ∧
    (minScale ≤ s → s ≤ maxScale → clamp s minScale maxScale = s) ∧
    (minScale ≤ (initialFontScaleState s cached minScale maxScale n).fontScale ∧
      (initialFontScaleState s cached minScale maxScale n).fontScale ≤ maxScale) ∧
    (minScale ≤ (updateFontScaleResult s cached minScale maxScale n).fontScale ∧
      (updateFontScaleResult s cached minScale maxScale n).fontScale ≤ maxScale) ∧
    (minScale ≤ (getFontScaleResult s cached minScale maxScale).fontScale ∧
      (getFontScaleResult s cached minScale maxScale).fontScale ≤ maxScale) ∧
    (initialFontScaleState s cached minScale maxScale n).fontScale =
      clamp s minScale maxScale ∧
    (updateFontScaleResult s cached minScale maxScale n).fontScale =
      clamp s minScale maxScale ∧
    (getFontScaleResult s cached minScale maxScale).fontScale =
      clamp s minScale maxScale := by
  have hlow : minScale ≤ clamp s minScale maxScale :=
    le_min (le_max_right s minScale) h
  have hup : clamp s minScale maxScale ≤ maxScale := min_le_right _ _
  refine ⟨⟨hlow, hup⟩, ?_, ⟨hlow, hup⟩, ⟨hlow, hup⟩, ⟨hlow, hup⟩, rfl, rfl, rfl⟩
  intro h1 h2
  unfold clamp
  rw [max_eq_left h1, min_eq_left h2]

/-- Witness for clamp_bounds_and_exposure at s = 1.5, cached = 1, the
    default bounds 0.8 and 2, and counter 0. -/
theorem clamp_bounds_and_exposure_witness :
    (((0.8 : ℚ) ≤ clamp 1.5 0.8 2 ∧ clamp (1.5 : ℚ) 0.8 2 ≤ 2) ∧
      ((0.8 : ℚ) ≤ 1.5 → (1.5 : ℚ) ≤ 2 → clamp (1.5 : ℚ) 0.8 2 = 1.5) ∧
      ((0.8 : ℚ) ≤ (initialFontScaleState 1.5 1 0.8 2 0).fontScale ∧
        (initialFontScaleState (1.5 : ℚ) 1 0.8 2 0).fontScale ≤ 2) ∧
      ((0.8 : ℚ) ≤ (updateFontScaleResult 1.5 1 0.8 2 0).fontScale ∧
        (updateFontScaleResult (1.5 : ℚ) 1 0.8 2 0).fontScale ≤ 2) ∧
      ((0.8 : ℚ) ≤ (getFontScaleResult 1.5 1 0.8 2).fontScale ∧
        (getFontScaleResult (1.5 : ℚ) 1 0.8 2).fontScale ≤ 2) ∧
      (initialFontScaleState (1.5 : ℚ) 1 0.8 2 0).fontScale =
        clamp 1.5 0.8 2 ∧
      (updateFontScaleResult (1.5 : ℚ) 1 0.8 2 0).fontScale =
        clamp 1.5 0.8 2 ∧
      (getFontScaleResult (1.5 : ℚ) 1 0.8 2).fontScale =
        clamp 1.5 0.8 2) :=
  clamp_bounds_and_exposure 1.5 1 0.8 2 0 (by norm_num)

/-- Claim C4: with a nonnegative base size, the derived size is monotone
    non-decreasing in the scale factor, and constant once both scale factors
    are at or above the cap. -/
theorem applyScale_monotone_and_capped (b c s1 s2 : ℚ) (hb : 0 ≤ b) :
    (s1 ≤ s2 → applyScale b s1 c ≤ applyScale b s2 c) ∧
    (c ≤ s1 → c ≤ s2 → applyScale b s1 c = applyScale b s2 c) := by
  constructor
  · intro h
    exact jsRound_mono (mul_le_mul_of_nonneg_left (min_le_min h le_rfl) hb)
  · intro h1 h2
    unfold applyScale
    rw [min_eq_right h1, min_eq_right h2]

/-- Witness for applyScale_monotone_and_capped: monotone step from scale 1
    to 1.5 at base 14 with cap 2, and constancy past the heading cap 1.4 at
    scales 3 and 5 with base 48. -/
theorem applyScale_monotone_and_capped_witness :
    applyScale 14 1 2 ≤ applyScale 14 1.5 2 ∧
    applyScale 48 3 (1.4 : ℚ) = applyScale 48 5 1.4 :=
  ⟨(applyScale_monotone_and_capped 14 2 1 1.5 (by norm_num)).1 (by norm_num),
    (applyScale_monotone_and_capped 48 1.4 3 5 (by norm_num)).2
      (by norm_num) (by norm_num)⟩

/-- Claim C6: when the configuration is malformed with minScale > maxScale,
    clamp returns maxScale regardless of the reading. -/
theorem clamp_degenerate_returns_max (v minScale maxScale : ℚ)
    (h : maxScale < minScale) : clamp v minScale maxScale = maxScale := by
  unfold clamp
  exact min_eq_right (le_trans h.le (le_max_right v minScale))

/-- Witness for clamp_degenerate_returns_max with minScale = 2,
    maxScale = 0.8 and reading 1.2. -/
theorem clamp_degenerate_returns_max_witness :
    (0.8 : ℚ) < 2 ∧ clamp (1.2 : ℚ) 2 0.8 = 0.8 :=
  ⟨by norm_num, clamp_degenerate_returns_max 1.2 2 0.8 (by norm_num)⟩

/-- Claim C5: for a nonnegative scale factor, every text variant's
    lineHeight equals round(fontSize * m) for the variant's fixed
    multiplier m, every multiplier is at least 1, and the lineHeight is at
    least the fontSize. -/
theorem variant_line_height_spec (s : ℚ) (hs : 0 ≤ s) (k : VariantKey) :
    variantLineHeight s k =
      jsRound ((variantFontSize s k : ℚ) * variantMultiplier k) ∧
    1 ≤ variantMultiplier k ∧
    variantFontSize s k ≤ variantLineHeight s k := by
  have heq : variantLineHeight s k =
      jsRound ((variantFontSize s k : ℚ) * variantMultiplier k) := by
    cases k <;> rfl
  have hmul : 1 ≤ variantMultiplier k := by
    cases k <;>
      norm_num [variantMultiplier, lineHeightTight, lineHeightNormal]
  have hfs : 0 ≤ variantFontSize s k := by
    cases k <;>
      exact applyScale_nonneg (by norm_num [baseFontSizes]) hs
        (by norm_num [scaleCapsCaption, scaleCapsBody, scaleCapsHeading,
          scaleCapsButton])
  exact ⟨heq, hmul, heq ▸ le_jsRound_mul hfs hmul⟩

/-- Witness for variant_line_height_spec at scale 1 and the body variant. -/
theorem variant_line_height_spec_witness :
    variantLineHeight 1 VariantKey.body =
      jsRound ((variantFontSize 1 VariantKey.body : ℚ) *
        variantMultiplier VariantKey.body) ∧
    1 ≤ variantMultiplier VariantKey.body ∧
    variantFontSize 1 VariantKey.body ≤ variantLineHeight 1 VariantKey.body :=
  variant_line_height_spec 1 (by norm_num) VariantKey.body

/-- Claim C8: a base spacing value of zero derives to zero for every scale
    factor. -/
theorem spacing_zero_preserved (s : ℚ) (k : SpacingKey)
    (h : baseSpacing k = 0) : createScaledSpacing s (.pos k) = 0 := by
  show scaledSpacingPos s k = 0
  unfold scaledSpacingPos
  rw [if_pos h]

/-- Witness for spacing_zero_preserved: the none key has base 0 and derives
    to 0 at both default domain boundaries 0.8 and 2. -/
theorem spacing_zero_preserved_witness :
    baseSpacing SpacingKey.none = 0 ∧
    createScaledSpacing defaultMinScale (SpacingEntry.pos SpacingKey.none) = 0 ∧
    createScaledSpacing defaultMaxScale (SpacingEntry.pos SpacingKey.none) = 0 :=
  ⟨rfl, spacing_zero_preserved defaultMinScale SpacingKey.none rfl,
    spacing_zero_preserved defaultMaxScale SpacingKey.none rfl⟩

/-- Claim C9: for every scale factor, each negative spacing key derives to
    the arithmetic negation of its positive counterpart, spelled out for
    all six negative keys. -/
theorem negative_spacing_symmetry (s : ℚ) :
    (∀ k : NegSpacingKey,
      createScaledSpacing s (.neg k) =
        - createScaledSpacing s (.pos (negSpacingBase k))) ∧
    createScaledSpacing s (.neg .xs) = - createScaledSpacing s (.pos .xs) ∧
    createScaledSpacing s (.neg .sm) = - createScaledSpacing s (.pos .sm) ∧
    createScaledSpacing s (.neg .md) = - createScaledSpacing s (.pos .md) ∧
    createScaledSpacing s (.neg .lg) = - createScaledSpacing s (.pos .lg) ∧
    createScaledSpacing s (.neg .xl) = - createScaledSpacing s (.pos .xl) ∧
    createScaledSpacing s (.neg .x2l) = - createScaledSpacing s (.pos .x2l) := by
  refine ⟨fun k => ?_, rfl, rfl, rfl, rfl, rfl, rfl⟩
  cases k <;> rfl

/-- Claim C10: every FontScaleResult produced by the hook's initial state,
    by updateFontScale and by the imperative getFontScale has
    fontScaleCorrection = fontScale / cachedFontScale when the cached scale
    is nonzero (so correction * cached = fontScale), and
    fontScaleCorrection = 1 when the cached scale is zero. -/
theorem correction_factor_invariant (a c minScale maxScale : ℚ) (n : ℕ) :
    ((c ≠ 0 →
      (initialFontScaleState a c minScale maxScale n).fontScaleCorrection =
        (initialFontScaleState a c minScale maxScale n).fontScale /
          (initialFontScaleState a c minScale maxScale n).cachedFontScale ∧
      (initialFontScaleState a c minScale maxScale n).fontScaleCorrection *
          (initialFontScaleState a c minScale maxScale n).cachedFontScale =
        (initialFontScaleState a c minScale maxScale n).fontScale) ∧
    (c = 0 →
      (initialFontScaleState a c minScale maxScale n).fontScaleCorrection = 1)) ∧
    ((c ≠ 0 →
      (updateFontScaleResult a c minScale maxScale n).fontScaleCorrection =
        (updateFontScaleResult a c minScale maxScale n).fontScale /
          (updateFontScaleResult a c minScale maxScale n).cachedFontScale ∧
      (updateFontScaleResult a c minScale maxScale n).fontScaleCorrection *
          (updateFontScaleResult a c minScale maxScale n).cachedFontScale =
        (updateFontScaleResult a c minScale maxScale n).fontScale) ∧
    (c = 0 →
      (updateFontScaleResult a c minScale maxScale n).fontScaleCorrection = 1)) ∧
    ((c ≠ 0 →
      (getFontScaleResult a c minScale maxScale).fontScaleCorrection =
        (getFontScaleResult a c minScale maxScale).fontScale /
          (getFontScaleResult a c minScale maxScale).cachedFontScale ∧
      (getFontScaleResult a c minScale maxScale).fontScaleCorrection *
          (getFontScaleResult a c minScale maxScale).cachedFontScale =
        (getFontScaleResult a c minScale maxScale).fontScale) ∧
    (c = 0 →
      (getFontScaleResult a c minScale maxScale).fontScaleCorrection = 1)) := by
  refine ⟨⟨fun hc => ?_, fun hc => ?_⟩, ⟨fun hc => ?_, fun hc => ?_⟩,
    ⟨fun hc => ?_, fun hc => ?_⟩⟩ <;>
    simp [initialFontScaleState, updateFontScaleResult, getFontScaleResult,
      hc, div_mul_cancel₀]

/-- Witness for correction_factor_invariant at actual scale 1.5, cached
    scale 2, default bounds and counter 0, discharging the nonzero and the
    zero cached-scale cases at cached scales 2 and 0. -/
theorem correction_factor_invariant_witness :
    (updateFontScaleResult (1.5 : ℚ) 2 0.8 2 0).fontScaleCorrection *
        (updateFontScaleResult (1.5 : ℚ) 2 0.8 2 0).cachedFontScale =
      (updateFontScaleResult (1.5 : ℚ) 2 0.8 2 0).fontScale ∧
    (initialFontScaleState (1.5 : ℚ) 0 0.8 2 0).fontScaleCorrection = 1 ∧
    (getFontScaleResult (1.5 : ℚ) 2 0.8 2).fontScaleCorrection =
      (getFontScaleResult (1.5 : ℚ) 2 0.8 2).fontScale /
        (getFontScaleResult (1.5 : ℚ) 2 0.8 2).cachedFontScale :=
  ⟨((correction_factor_invariant 1.5 2 0.8 2 0).2.1.1 (by norm_num)).2,
    (correction_factor_invariant 1.5 0 0.8 2 0).1.2 rfl,
    ((correction_factor_invariant 1.5 2 0.8 2 0).2.2.1 (by norm_num)).1⟩

/-- Counterexample to claim C3 as stated: when the live module read rejects
    and the cached platform read also throws, getNativeFontScale propagates
    the error instead of returning 1.0. -/
theorem total_failure_propagates_error :
    getNativeFontScale
      { platformIsAndroid := true, moduleAvailable := true,
        moduleRead := Except.error (), cachedRead := Except.error () } ≠
      Except.ok 1 := by
  simp [getNativeFontScale]

/-- Claim C3 amended: the 1.0 safety default lives in the native module:
    when both of its internal reads (activity configuration and application
    context) throw, the module resolves 1.0 and the Scale Reader returns
    exactly 1.0; every single-path failure at the JS layer (module promise
    rejects, module unavailable, platform not Android) falls back to the
    cached platform read. -/
theorem scale_reader_fallback_behavior :
    (∀ ea eb : Unit, ∀ cached : Except Unit ℚ,
      getNativeFontScale
        { platformIsAndroid := true, moduleAvailable := true,
          moduleRead :=
            Except.ok (kotlinGetFontScale (Except.error ea) (Except.error eb)),
          cachedRead := cached } = Except.ok 1) ∧
    (∀ e : Unit, ∀ cached : Except Unit ℚ,
      getNativeFontScale
        { platformIsAndroid := true, moduleAvailable := true,
          moduleRead := Except.error e, cachedRead := cached } = cached) ∧
    (∀ mr cached : Except Unit ℚ,
      getNativeFontScale
        { platformIsAndroid := true, moduleAvailable := false,
          moduleRead := mr, cachedRead := cached } = cached) ∧
    (∀ avail : Bool, ∀ mr cached : Except Unit ℚ,
      getNativeFontScale
        { platformIsAndroid := false, moduleAvailable := avail,
          moduleRead := mr, cachedRead := cached } = cached) :=
  ⟨fun _ _ _ => rfl, fun _ _ => rfl, fun _ _ => rfl, fun _ _ _ => rfl⟩

/-- Counterexample to claim C7 as stated: outside any provider, useContext
    yields the createContext default 1 rather than undefined, so the
    console.warn branch of useFontScaleValue does not fire — the misuse is
    not detected and no warning is logged. -/
theorem useFontScaleValue_no_warning_outside_provider :
    (useFontScaleValue (useContextFontScale Option.none)).warned = false :=
  rfl

/-- Claim C7 amended: called outside an active ScaledThemeProvider,
    useFontScaleValue returns the neutral scale 1.0 via the context default,
    with no warning logged; inside a provider it returns the provided value
    without warning. -/
theorem useFontScaleValue_fallback_behavior :
    (useFontScaleValue (useContextFontScale Option.none)).value = 1 ∧
    (useFontScaleValue (useContextFontScale Option.none)).warned = false ∧
    (∀ v : ℚ,
      (useFontScaleValue (useContextFontScale (some (some v)))).value = v ∧
      (useFontScaleValue (useContextFontScale (some (some v)))).warned =
        false) :=
  ⟨rfl, rfl, fun _ => ⟨rfl, rfl⟩⟩

end FontScaling
